import Mathlib

/- Shallow embedding of the DCore Green's-function layer:
   src/dcore/backend/triqs_compat/gf/gf.py together with the imaginary
   frequency mesh of src/dcore/triqs_compat/gf/meshes.py.

   Modelling conventions:
   * Floating-point scalars are modelled over an arbitrary field K; the
     numeric constants `1J` (numpy imaginary unit) and `np.pi` used by
     gf.py are supplied through a `NumericCtx`.  Concrete instances in
     witnesses use K = Q (for exactly computable claims) or K = C with
     Complex.I and Real.pi (for the Matsubara-value claims).
   * A numpy rank-3 array is a `T3`: a shape (n0, n1, n2) together with a
     total entry function; entries at indices outside the shape are
     phantom values that no claim depends on.  A rank-2 array is a `Mat`.
   * Python exceptions are modelled with `Except`/`Option` results, or by
     returning the pair (unchanged object, some error) for the in-place
     operators whose claims speak about mutation.
   * Object identity (deepcopy / `<<` aliasing claims) is modelled by a
     small heap `PyStore` of references at the end of the definitions. -/

/-- Values of the numpy constants used by gf.py: `im` is `1J`, `pi` is
`np.pi`. -/
structure NumericCtx (K : Type) where
  im : K
  pi : K

/-- MeshImFreq of src/dcore/triqs_compat/gf/meshes.py: inverse temperature
`beta`, statistic string, and the number `n_points` of non-negative
frequencies.  Its `_points` array is `np.arange(-n_points, n_points)`. -/
structure MeshImFreq (K : Type) where
  beta : K
  statistic : String
  n_points : ℕ

/-- The `_points` array of MeshImFreq (and its `points` property in
src/dcore/triqs_compat/gf/meshes.py): `np.arange(-n_points, n_points)`,
the signed integers of [-n_points, n_points). -/
def MeshImFreq.points {K : Type} (m : MeshImFreq K) : List ℤ :=
  (List.range (2 * m.n_points)).map (fun j : ℕ => (j : ℤ) - (m.n_points : ℤ))

/-- The `size` property: `self._points.size`. -/
def MeshImFreq.size {K : Type} (m : MeshImFreq K) : ℕ :=
  m.points.length

/-- Modelled from the spec: gf.py imports MeshImFreq from
src/dcore/backend/triqs_compat/gf/meshes.py, a module that is not part of
the sources; only the sibling src/dcore/triqs_compat/gf/meshes.py is.
Per spec section 4.1 and section 6, the mesh point k must be consumed by
`LinearExpression.evaluate` (which computes `1J*points*np.pi/beta`) as the
Matsubara value i(2k+1)pi/beta for Fermion statistic, and the Boson
convention uses even integers; hence the backend mesh's `points`
attribute holds the integers 2k+1 (Fermion) resp. 2k (Boson) for
k in [-n_points, n_points). -/
def MeshImFreq.backendPoints {K : Type} (m : MeshImFreq K) : List ℤ :=
  (List.range (2 * m.n_points)).map
    (fun j : ℕ => 2 * ((j : ℤ) - (m.n_points : ℤ)) +
      (if m.statistic = "Fermion" then 1 else 0))

/-- A numpy rank-3 array of complex numbers: shape (n0, n1, n2) plus a
total entry function (values outside the shape are phantom). -/
structure T3 (K : Type) where
  n0 : ℕ
  n1 : ℕ
  n2 : ℕ
  entry : ℕ → ℕ → ℕ → K

/-- A numpy rank-2 array: shape (rows, cols) plus an entry function. -/
structure Mat (K : Type) where
  rows : ℕ
  cols : ℕ
  entry : ℕ → ℕ → K

/-- The slice `data[1:]` of a rank-3 array (this is what `Gf.__init__`
stores in `self.target_shape`). -/
def slice1 {K : Type} (t : T3 K) : T3 K :=
  { n0 := t.n0 - 1, n1 := t.n1, n2 := t.n2,
    entry := fun w i j => t.entry (w + 1) i j }

/-- GfIndices of gf.py: wraps a list (normally of length 2) of label
lists. -/
structure GfIndices where
  data : List (List String)

/-- `GfIndices.__getitem__`: `self._data[key]`. -/
def GfIndices.get (i : GfIndices) (k : ℕ) : List String :=
  i.data.getD k []

/-- The Gf container of gf.py: the rank-3 `data` tensor, the
`target_shape` attribute (which `__init__` sets to the array slice
`self.data[1:]`), the scalar metadata, the mesh and the index set.
The claims only exercise imaginary-frequency meshes, so `mesh` is a
MeshImFreq.  The Python `beta=None` default is outside the claims, so
`beta` is a plain field element. -/
structure Gf (K : Type) where
  data : T3 K
  targetShape : T3 K
  name : String
  beta : K
  statistic : String
  mesh : MeshImFreq K
  indices : GfIndices

/-- The `indices` keyword of `Gf.__init__`: absent, a flat list of
labels (an ndarray of labels behaves identically, since both are first
stringified elementwise), a nested list of per-axis label lists, or a
value of any other type (for instance an actual GfIndices object), which
the constructor rejects. -/
inductive IndicesArg where
  | noneArg : IndicesArg
  | flat (labels : List String) : IndicesArg
  | nested (labels : List (List String)) : IndicesArg
  | otherArg : IndicesArg

/-- Failures of `Gf.__init__`: the `ValueError("Invalid indices!")` of
the index normalisation, the `assert data is None` / `assert mesh is
None` guards of the n_points branch, the `assert indices is not None`
guard of the data-allocation branch, and the AttributeError hit when
`mesh._points` is read while mesh is None. -/
inductive ConstructErr where
  | invalidIndices : ConstructErr
  | dataWithNPoints : ConstructErr
  | meshWithNPoints : ConstructErr
  | missingIndices : ConstructErr
  | missingMesh : ConstructErr

/-- The quote character that Python repr puts around a string. -/
def pyQuote : String := String.mk [Char.ofNat 39]

/-- Python `str()`/`repr()` of a string, as it appears inside the repr of
a list: the string between quote characters (accurate for labels without
quote or backslash characters, the only ones the claims use). -/
def pyReprString (s : String) : String := pyQuote ++ s ++ pyQuote

/-- Python `str()` of a list of strings: an opening bracket, the
comma-separated reprs of the elements, a closing bracket. -/
def pyStrListStr (l : List String) : String :=
  "[" ++ String.intercalate ", " (l.map pyReprString) ++ "]"

/-- Index normalisation at the top of `Gf.__init__` (gf.py lines 99-111).
The FIRST step, `indices = list(map(str, indices))`, runs on any list
(or ndarray) argument, so:
a flat list of labels is unchanged (str of a str is the str itself) and
the list-of-strings branch duplicates it onto both axes
(`GfIndices(2*[indices])`);
a nested [left, right] list is MANGLED: each inner list is stringified
to its Python repr, leaving a flat list of repr strings that the same
list-of-strings branch duplicates onto both axes — the
`elif isinstance(indices, list)` branch below it is dead code;
any other non-None argument raises `ValueError("Invalid indices!")`. -/
def processIndices : IndicesArg → Except ConstructErr (Option GfIndices)
  | IndicesArg.noneArg => Except.ok none
  | IndicesArg.flat l => Except.ok (some ⟨[l, l]⟩)
  | IndicesArg.nested ll =>
      Except.ok (some ⟨[ll.map pyStrListStr, ll.map pyStrListStr]⟩)
  | IndicesArg.otherArg => Except.error ConstructErr.invalidIndices

/-- Default index labels: `list(map(str, np.arange(n)))`. -/
def natRangeLabels (n : ℕ) : List String :=
  (List.range n).map toString

/-- The tail of `Gf.__init__` once `data` is known: set `data`,
`target_shape = data[1:]`, the scalar metadata, derive the default mesh
`MeshImFreq(beta, statistic, data.shape[0]//2)` when mesh is absent, and
default the indices to stringified ranges when absent. -/
def mkFields {K : Type} (d : T3 K) (name : String) (beta : K)
    (statistic : String) (meshArg : Option (MeshImFreq K))
    (indicesOpt : Option GfIndices) : Gf K :=
  { data := d
    targetShape := slice1 d
    name := name
    beta := beta
    statistic := statistic
    mesh := meshArg.getD ⟨beta, statistic, d.n0 / 2⟩
    indices := indicesOpt.getD ⟨[natRangeLabels d.n1, natRangeLabels d.n2]⟩ }

/-- The data-resolution step of `Gf.__init__`: when `data` is absent an
index set must be present and a mesh must be available, and the data
array is allocated with `np.empty((mesh._points.size, N1, N2))` — an
UNINITIALISED array whose contents are modelled by the ambient memory
function `uninit`. -/
def gfInitCore {K : Type} (dataArg : Option (T3 K)) (name : String)
    (beta : K) (statistic : String) (meshArg : Option (MeshImFreq K))
    (indicesOpt : Option GfIndices) (uninit : ℕ → ℕ → ℕ → K) :
    Except ConstructErr (Gf K) :=
  match dataArg with
  | none =>
    match indicesOpt with
    | none => Except.error ConstructErr.missingIndices
    | some idx =>
      match meshArg with
      | none => Except.error ConstructErr.missingMesh
      | some m =>
        Except.ok (mkFields ⟨m.size, (idx.get 0).length, (idx.get 1).length, uninit⟩
          name beta statistic (some m) (some idx))
  | some d => Except.ok (mkFields d name beta statistic meshArg indicesOpt)

/-- `Gf.__init__` (the `delegate` inner function) with keyword arguments
data, name, beta, statistic, mesh, indices, n_points and the fixed
`mesh_type = MeshImFreq`.  The index normalisation runs first (its
ValueError precedes the n_points asserts, as in the source); `uninit`
models the contents of uninitialised `np.empty` memory. -/
def gfInit {K : Type} (dataArg : Option (T3 K)) (name : String) (beta : K)
    (statistic : String) (meshArg : Option (MeshImFreq K))
    (indicesArg : IndicesArg) (nPointsArg : Option ℕ)
    (uninit : ℕ → ℕ → ℕ → K) : Except ConstructErr (Gf K) :=
  match processIndices indicesArg with
  | Except.error e => Except.error e
  | Except.ok indicesOpt =>
    match nPointsArg with
    | some np =>
      match dataArg with
      | some _ => Except.error ConstructErr.dataWithNPoints
      | none =>
        match meshArg with
        | some _ => Except.error ConstructErr.meshWithNPoints
        | none =>
          gfInitCore none name beta statistic
            (some ⟨beta, statistic, np⟩) indicesOpt uninit
    | none => gfInitCore dataArg name beta statistic meshArg indicesOpt uninit

/-- Elementwise sum of two rank-3 arrays (`data += other`), keeping the
left operand's shape as numpy's in-place add does. -/
def add3 {K : Type} [Field K] (t u : T3 K) : T3 K :=
  { t with entry := fun w i j => t.entry w i j + u.entry w i j }

/-- `data *= c` for a scalar c. -/
def scale3 {K : Type} [Field K] (c : K) (t : T3 K) : T3 K :=
  { t with entry := fun w i j => t.entry w i j * c }

/-- `data /= c` for a scalar c. -/
def div3 {K : Type} [Field K] (c : K) (t : T3 K) : T3 K :=
  { t with entry := fun w i j => t.entry w i j / c }

/-- A coefficient of a LinearExpression: `a_i is a scalar or a matrix`. -/
inductive Coeff (K : Type) where
  | scalar (c : K) : Coeff K
  | matrix (m : Mat K) : Coeff K

/-- LinearExpression of gf.py: `a_0 + a_1 * z` over the frequency. -/
structure LinearExpression (K : Type) where
  a0 : Coeff K
  a1 : Coeff K

/-- `_convert_to_matrix(a, g)`: a scalar becomes
`a * np.identity(g.data.shape[1])` (entries outside the nf x nf block are
phantom), a matrix is returned unchanged. -/
def convertToMatrix {K : Type} [Field K] (a : Coeff K) : ℕ → ℕ → K :=
  match a with
  | Coeff.scalar c => fun i j => if i = j then c else 0
  | Coeff.matrix m => m.entry

/-- `LinearExpression.evaluate(self, g)`: start from a zeroed copy of g,
add `a0_[None,:,:]`, then add `iv[:,None,None] * a1_[None,:,:]` where
`iv = 1J * g.mesh.points * np.pi / g.beta` (note: g.beta, the container's
own beta). -/
def LinearExpression.evaluate {K : Type} [Field K] (e : LinearExpression K)
    (ctx : NumericCtx K) (g : Gf K) : Gf K :=
  { g with data := { g.data with entry := (fun w i j =>
      convertToMatrix e.a0 i j +
        ctx.im * ((g.mesh.backendPoints.getD w 0 : ℤ) : K) * ctx.pi / g.beta *
          convertToMatrix e.a1 i j) } }

/-- The module constant `iOmega_n = LinearExpression(0., 1.)`. -/
def iOmega_n (K : Type) [Field K] : LinearExpression K :=
  ⟨Coeff.scalar 0, Coeff.scalar 1⟩

/-- The per-point matrix inverse used by `GfImFreq.inverse`
(np.linalg.inv), written with the adjugate formula
`inv A = (det A)⁻¹ * adjugate A`, which agrees with np.linalg.inv on
invertible matrices (the claims never evaluate it on a singular one). -/
def matInvFun {K : Type} [Field K] (n : ℕ) (M : ℕ → ℕ → K) : ℕ → ℕ → K :=
  fun i j =>
    if h : i < n ∧ j < n then
      (Matrix.of (fun a b : Fin n => M a.1 b.1)).det⁻¹ *
        (Matrix.adjugate (Matrix.of (fun a b : Fin n => M a.1 b.1))) ⟨i, h.1⟩ ⟨j, h.2⟩
    else 0

/-- `GfImFreq.inverse`: a copy whose data is the per-mesh-point matrix
inverse of the original data. -/
def Gf.inverse {K : Type} [Field K] (g : Gf K) : Gf K :=
  { g with data := { g.data with entry := (fun w i j =>
      matInvFun g.data.n1 (fun a b => g.data.entry w a b) i j) } }

/-- A raw numpy ndarray as seen by `Gf.__lshift__` / `Gf.__add__`: rank 2,
rank 3, or any other rank (which carries no data because those branches
only raise). -/
inductive Nd (K : Type) where
  | r2 (m : Mat K) : Nd K
  | r3 (t : T3 K) : Nd K
  | otherRank (n : ℕ) (ne2 : n ≠ 2) (ne3 : n ≠ 3) : Nd K

/-- The right-hand side of `Gf.__lshift__`: a Gf, an ndarray, a
LinearExpression, an InverseLinearExpression, or a value of any other
(unrecognised) type. -/
inductive LshiftRhs (K : Type) where
  | gfA (h : Gf K) : LshiftRhs K
  | arr (a : Nd K) : LshiftRhs K
  | lin (e : LinearExpression K) : LshiftRhs K
  | invLin (e : LinearExpression K) : LshiftRhs K
  | otherType : LshiftRhs K

/-- The two raise sites of `Gf.__lshift__`:
`RuntimeError("Invalid ndarray A!")` for an ndarray of rank other than
2 or 3 (the spec's ShapeError), and `RuntimeError("Invalid type of A!")`
for an unrecognised type (the spec's UnsupportedOperandError). -/
inductive LshiftErr where
  | invalidNdarray : LshiftErr
  | invalidType : LshiftErr

/-- `Gf.__lshift__(self, A)`, returned as (final state of self, raised
error if any).  A Gf right-hand side overwrites exactly the fields data,
target_shape, name, beta, statistic (`copy(...)` of each); a rank-3
ndarray is written elementwise into `self.data[...]`; a rank-2 ndarray is
broadcast over the mesh axis; a LinearExpression or its inverse is
evaluated against self and the result written into `self.data[...]`;
any other rank or type raises with self untouched. -/
def lshift {K : Type} [Field K] (ctx : NumericCtx K) (g : Gf K) :
    LshiftRhs K → Gf K × Option LshiftErr
  | LshiftRhs.gfA h =>
    ({ g with
        data := h.data,
        targetShape := h.targetShape,
        name := h.name,
        beta := h.beta,
        statistic := h.statistic }, none)
  | LshiftRhs.arr (Nd.r3 t) =>
    ({ g with data := { g.data with entry := t.entry } }, none)
  | LshiftRhs.arr (Nd.r2 m) =>
    ({ g with data := { g.data with entry := fun _ i j => m.entry i j } }, none)
  | LshiftRhs.arr (Nd.otherRank _ _ _) => (g, some LshiftErr.invalidNdarray)
  | LshiftRhs.lin e =>
    ({ g with data := { g.data with entry := (e.evaluate ctx g).data.entry } }, none)
  | LshiftRhs.invLin e =>
    ({ g with data := { g.data with entry := ((e.evaluate ctx g).inverse).data.entry } }, none)
  | LshiftRhs.otherType => (g, some LshiftErr.invalidType)

/-- The five dimension checks of `Gf.from_L_G_R`, in source order, each
named after the pair its assertion message blames. -/
inductive DimMismatch where
  | L_self : DimMismatch
  | L_G : DimMismatch
  | G_R : DimMismatch
  | R_self : DimMismatch
  | G_self_leading : DimMismatch

/-- The pair of dimensions that a DimMismatch value blames, exactly as the
assertion messages of `from_L_G_R` name them. -/
def mismatchNames {K : Type} (e : DimMismatch) (g : Gf K) (L : Mat K)
    (G : Gf K) (R : Mat K) : Prop :=
  match e with
  | DimMismatch.L_self => L.rows ≠ g.data.n1
  | DimMismatch.L_G => L.cols ≠ G.data.n1
  | DimMismatch.G_R => G.data.n2 ≠ R.rows
  | DimMismatch.R_self => R.cols ≠ g.data.n2
  | DimMismatch.G_self_leading => G.data.n0 ≠ g.data.n0

/-- `Gf.from_L_G_R(self, L, G, R)` returned as (final state of self,
raised mismatch if any).  L and R are rank-2 by type (the two `ndim == 2`
asserts).  The five shape asserts run in source order before the single
write `self.data[...] = np.einsum('ac,wcd,db->wab', L, G.data, R)`; a
failing assert leaves self untouched. -/
def Gf.from_L_G_R {K : Type} [Field K] (g : Gf K) (L : Mat K) (G : Gf K)
    (R : Mat K) : Gf K × Option DimMismatch :=
  if L.rows ≠ g.data.n1 then (g, some DimMismatch.L_self)
  else if L.cols ≠ G.data.n1 then (g, some DimMismatch.L_G)
  else if G.data.n2 ≠ R.rows then (g, some DimMismatch.G_R)
  else if R.cols ≠ g.data.n2 then (g, some DimMismatch.R_self)
  else if G.data.n0 ≠ g.data.n0 then (g, some DimMismatch.G_self_leading)
  else
    ({ g with data := { g.data with entry := (fun w a b =>
        Finset.sum (Finset.range L.cols) (fun c =>
          Finset.sum (Finset.range G.data.n2) (fun d =>
            L.entry a c * G.data.entry w c d * R.entry d b))) } }, none)

/-- The right-hand side of `Gf.__add__`: a container of the same concrete
class, an ndarray, or a value of any other type. -/
inductive AddRhs (K : Type) where
  | sameKind (h : Gf K) : AddRhs K
  | arr (a : Nd K) : AddRhs K
  | otherType : AddRhs K

/-- The failures of `Gf.__add__`: `RuntimeError("Invalid ndarray!")` for
an ndarray of rank other than 2 or 3, and the TypeError produced by
`other.data[None,:,:]` — for a raw ndarray `other`, `other.data` is a
memoryview, and a memoryview cannot be indexed with None. -/
inductive AddErr where
  | invalidNdarray : AddErr
  | memoryviewTypeError : AddErr

/-- `Gf.__add__(self, other)`: works on `res = self.copy()`, so self is
never mutated and the result is returned.
Same-kind container: `res.data += other.data` (elementwise sum keeping
self's mesh and indices).
Rank-3 ndarray: the code runs `res.data += other.data`, where
`other.data` is the ndarray's buffer memoryview; numpy converts it back to
an identical array via the buffer protocol, so the values still add
elementwise.
Rank-2 ndarray: the code runs `res.data += other.data[None,:,:]`, and
indexing a memoryview with None raises TypeError — the broadcast never
happens.
Other rank: RuntimeError("Invalid ndarray!").
Unrecognised type: the if/elif chain has no else branch, so the
unmodified copy of self is returned silently. -/
def Gf.add {K : Type} [Field K] (g : Gf K) : AddRhs K → Except AddErr (Gf K)
  | AddRhs.sameKind h => Except.ok { g with data := add3 g.data h.data }
  | AddRhs.arr (Nd.r3 t) => Except.ok { g with data := add3 g.data t }
  | AddRhs.arr (Nd.r2 _) => Except.error AddErr.memoryviewTypeError
  | AddRhs.arr (Nd.otherRank _ _ _) => Except.error AddErr.invalidNdarray
  | AddRhs.otherType => Except.ok g

/-- The right-hand side of `Gf.__mul__` / `Gf.__truediv__`: a scalar (in
the np.isscalar sense) or anything else. -/
inductive ScalarArg (K : Type) where
  | scalar (c : K) : ScalarArg K
  | nonScalar : ScalarArg K

/-- `Gf.__mul__(self, other)`: a scalar scales a copy's data; a non-scalar
returns NotImplemented (modelled as none). -/
def Gf.mul {K : Type} [Field K] (g : Gf K) : ScalarArg K → Option (Gf K)
  | ScalarArg.scalar c => some { g with data := scale3 c g.data }
  | ScalarArg.nonScalar => none

/-- `Gf.__rmul__ = Gf.__mul__` (a straight alias in the class body). -/
def Gf.rmul {K : Type} [Field K] : Gf K → ScalarArg K → Option (Gf K) :=
  Gf.mul

/-- `Gf.__truediv__(self, other)`: a scalar divides a copy's data
(through `res /= other`, i.e. `__itruediv__`); a non-scalar returns
NotImplemented. -/
def Gf.truediv {K : Type} [Field K] (g : Gf K) : ScalarArg K → Option (Gf K)
  | ScalarArg.scalar c => some { g with data := div3 c g.data }
  | ScalarArg.nonScalar => none

/-- What `MeshImFreq.__write_hdf5__` stores: positive_freq_only = False,
the size, the beta, and `self.statistic[0]` — only the FIRST character of
the statistic string. -/
structure MeshWritten (K : Type) where
  positive_freq_only : Bool
  size : ℕ
  beta : K
  statistic_head : String

/-- `MeshImFreq.__write_hdf5__`. -/
def MeshImFreq.writeH5 {K : Type} (m : MeshImFreq K) : MeshWritten K :=
  ⟨false, m.size, m.beta, m.statistic.take 1⟩

/-- Modelled from the spec: the archive factory that reconstructs a
MeshImFreq is not part of the sources (the h5 archive module and the
backend meshes module are absent from src); spec section 6 says each
`reconstruct(key, mapping)` factory reverses the corresponding write.
Reversing `MeshImFreq.__write_hdf5__` recovers beta, expands the stored
first character of the statistic ('F' to Fermion, otherwise Boson), and
recovers n_points as size // 2. -/
def meshFactoryFromDict {K : Type} (w : MeshWritten K) : MeshImFreq K :=
  ⟨w.beta, if w.statistic_head = "F" then "Fermion" else "Boson", w.size / 2⟩

/-- What `Gf.__write_hdf5__` stores: the data array, the mesh sub-group,
the indices sub-group (which `GfIndices.__write_hdf5__` stores as the
left and right label lists in fixed-width utf-8, a value-preserving
encoding), and the Format tag "Gf". -/
structure GfWritten (K : Type) where
  data : T3 K
  mesh : MeshWritten K
  left : List String
  right : List String
  format : String

/-- `Gf.__write_hdf5__`. -/
def Gf.writeH5 {K : Type} (g : Gf K) : GfWritten K :=
  ⟨g.data, g.mesh.writeH5, g.indices.get 0, g.indices.get 1, "Gf"⟩

/-- `Gf.__factory_from_dict__`: reconstructs through the constructor with
ONLY data, mesh, beta = mesh.beta and statistic = mesh.statistic — the
serialized indices (dict entries left/right) are NOT passed, so the
constructor falls back to the default stringified-range labels. -/
def gfFactoryFromDict {K : Type} [Field K] (w : GfWritten K) :
    Except ConstructErr (Gf K) :=
  gfInit (some w.data) "" (meshFactoryFromDict w.mesh).beta
    (meshFactoryFromDict w.mesh).statistic (some (meshFactoryFromDict w.mesh))
    IndicesArg.noneArg none (fun _ _ _ => 0)

/-- Serialize then reconstruct a container. -/
def gfRoundTrip {K : Type} [Field K] (g : Gf K) : Except ConstructErr (Gf K) :=
  gfFactoryFromDict g.writeH5

/- ---------------------------------------------------------------------
   Heap model for the object-identity claims (deepcopy and `<<`): a store
   of numpy-array objects, label-list objects and mesh objects addressed
   by references, with a fresh-allocation counter. -/

/-- A heap of Python objects: ndarray objects, label-list objects and
mesh objects, addressed by natural-number references below `fresh`. -/
structure PyStore (K : Type) where
  arrays : ℕ → T3 K
  labels : ℕ → List (List String)
  meshes : ℕ → MeshImFreq K
  fresh : ℕ

/-- A Gf as a Python object: attribute slots holding references into the
store (for the mutable ndarray / list / mesh objects) and immutable
scalar attributes held by value. -/
structure GfObj (K : Type) where
  dataRef : ℕ
  targetRef : ℕ
  meshRef : ℕ
  indicesRef : ℕ
  name : String
  beta : K
  statistic : String

/-- A GfObj is well formed in a store when all its references are
allocated (below the fresh counter). -/
def GfObj.wf {K : Type} (g : GfObj K) (σ : PyStore K) : Prop :=
  g.dataRef < σ.fresh ∧ g.targetRef < σ.fresh ∧
    g.meshRef < σ.fresh ∧ g.indicesRef < σ.fresh

/-- In-place mutation of the ndarray object behind a reference
(e.g. `c.data[...] = ...` or rebinding through any alias). -/
def writeArray {K : Type} (σ : PyStore K) (r : ℕ) (t : T3 K) : PyStore K :=
  { σ with arrays := fun x => if x = r then t else σ.arrays x }

/-- In-place mutation of the label-list object behind a reference. -/
def writeLabels {K : Type} (σ : PyStore K) (r : ℕ) (ls : List (List String)) :
    PyStore K :=
  { σ with labels := fun x => if x = r then ls else σ.labels x }

/-- `Gf.copy() = deepcopy(self)`: allocates fresh, independent objects for
every mutable attribute (data, target_shape, mesh, indices), each holding
a copy of the source object's current contents. -/
def deepcopyGf {K : Type} (σ : PyStore K) (g : GfObj K) : PyStore K × GfObj K :=
  ({ σ with
      arrays := (fun x =>
        if x = σ.fresh then σ.arrays g.dataRef
        else if x = σ.fresh + 1 then σ.arrays g.targetRef
        else σ.arrays x),
      meshes := (fun x =>
        if x = σ.fresh + 2 then σ.meshes g.meshRef else σ.meshes x),
      labels := (fun x =>
        if x = σ.fresh + 3 then σ.labels g.indicesRef else σ.labels x),
      fresh := σ.fresh + 4 },
   { g with
      dataRef := σ.fresh,
      targetRef := σ.fresh + 1,
      meshRef := σ.fresh + 2,
      indicesRef := σ.fresh + 3 })

/-- `Gf.__lshift__(self, A)` for a Gf right-hand side, on the heap model:
for each of the attributes data, target_shape, name, beta, statistic the
code runs `self.__setattr__(name, copy(A.__getattribute__(name)))`.
`copy()` of an ndarray allocates a NEW array object with the same
contents (modelled for the data and target_shape slots); `copy()` of the
immutable str/float values is the value itself.  The mesh and indices
slots are not in the loop and keep their references. -/
def lshiftObj {K : Type} (σ : PyStore K) (g A : GfObj K) : PyStore K × GfObj K :=
  ({ σ with
      arrays := (fun x =>
        if x = σ.fresh then σ.arrays A.dataRef
        else if x = σ.fresh + 1 then σ.arrays A.targetRef
        else σ.arrays x),
      fresh := σ.fresh + 2 },
   { g with
      dataRef := σ.fresh,
      targetRef := σ.fresh + 1,
      name := A.name,
      beta := A.beta,
      statistic := A.statistic })

/- ---------------------------------------------------------------------
   Concrete instances used by the witness and counterexample theorems. -/

/-- A concrete 2 x 1 x 1 data array over the rationals. -/
def d3Q : T3 ℚ := ⟨2, 1, 1, fun _ _ _ => 5⟩

/-- A concrete Fermion mesh over the rationals: beta = 2, n_points = 1. -/
def mQ : MeshImFreq ℚ := ⟨2, "Fermion", 1⟩

/-- A concrete 1 x 1 container over the rationals with custom index
labels. -/
def gQ : Gf ℚ :=
  { data := d3Q, targetShape := slice1 d3Q, name := "g", beta := 2,
    statistic := "Fermion", mesh := mQ, indices := ⟨[["a"], ["b"]]⟩ }

/-- A numeric context over the rationals (its im and pi values are
irrelevant to the claims that use it). -/
def ctxQ : NumericCtx ℚ := ⟨3, 7⟩

/-- A concrete 1 x 1 container over the complex numbers on the Fermion
mesh with beta = 10, n_points = 1, as in the spec's concrete scenario. -/
def gW : Gf ℂ :=
  { data := ⟨2, 1, 1, fun _ _ _ => 0⟩,
    targetShape := ⟨1, 1, 1, fun _ _ _ => 0⟩, name := "", beta := 10,
    statistic := "Fermion", mesh := ⟨10, "Fermion", 1⟩,
    indices := ⟨[["0"], ["0"]]⟩ }

/-- The index data of a constructor result (junk on error). -/
def rtIndices {K : Type} (r : Except ConstructErr (Gf K)) :
    List (List String) :=
  match r with
  | Except.ok g => g.indices.data
  | Except.error _ => []

/-- The data array of a constructor result (junk on error). -/
def dataOf {K : Type} [Field K] (r : Except ConstructErr (Gf K)) : T3 K :=
  match r with
  | Except.ok g => g.data
  | Except.error _ => ⟨0, 0, 0, fun _ _ _ => 0⟩

/-- A concrete rank-1 memory fill standing for uninitialised np.empty
memory that happens to contain ones. -/
def uninitOne : ℕ → ℕ → ℕ → ℚ := fun _ _ _ => 1

/-- A concrete 1 x 1 left transform matrix. -/
def L1 : Mat ℚ := ⟨1, 1, fun _ _ => 2⟩

/-- A concrete 1 x 1 right transform matrix. -/
def R1 : Mat ℚ := ⟨1, 1, fun _ _ => 3⟩

/-- A concrete 2 x 1 matrix whose row count disagrees with gQ's target
rows. -/
def LbadQ : Mat ℚ := ⟨2, 1, fun _ _ => 0⟩

/-- A concrete ndarray of rank 4 (neither 2 nor 3). -/
def nd4 : Nd ℚ := Nd.otherRank 4 (by norm_num) (by norm_num)

/-- A concrete replacement tensor for mutation witnesses. -/
def t3W : T3 ℚ := ⟨1, 1, 1, fun _ _ _ => 9⟩

/-- A concrete store holding four objects (refs 0..3). -/
def sQ : PyStore ℚ := ⟨fun _ => d3Q, fun _ => [["l"], ["r"]], fun _ => mQ, 4⟩

/-- A concrete Gf object over the store sQ. -/
def oQ : GfObj ℚ := ⟨0, 1, 2, 3, "g", 2, "Fermion"⟩

/-- A second concrete Gf object over the store sQ, with different scalar
attributes. -/
def oQ2 : GfObj ℚ := ⟨1, 0, 3, 2, "h", 7, "Boson"⟩

/- ---------------------------------------------------------------------
   Helper lemmas. -/

theorem list_getD_range_map (m w : ℕ) (f : ℕ → ℤ) (h : w < m) :
    ((List.range m).map f).getD w 0 = f w := by
  rw [List.getD_eq_getElem?_getD]
  simp [List.getElem?_map, List.getElem?_range, h]

theorem meshRoundTrip {K : Type} (m : MeshImFreq K)
    (h : m.statistic = "Fermion" ∨ m.statistic = "Boson") :
    meshFactoryFromDict m.writeH5 = m := by
  obtain ⟨b, s, n⟩ := m
  have hsize : (MeshImFreq.mk (K := K) b s n).size = 2 * n := by
    unfold MeshImFreq.size MeshImFreq.points
    rw [List.length_map, List.length_range]
  have hn : 2 * n / 2 = n := by omega
  rcases h with h | h <;> simp only at h <;> subst h
  · have ht : ("Fermion".take 1 : String) = "F" := rfl
    simp only [meshFactoryFromDict, MeshImFreq.writeH5, ht, hsize, hn]
    simp
  · have ht : ("Boson".take 1 : String) = "B" := rfl
    have hne : ("B" : String) ≠ "F" := by decide
    simp only [meshFactoryFromDict, MeshImFreq.writeH5, ht, hsize, hn]
    simp [hne]

/- ---------------------------------------------------------------------
   Claim theorems. -/

/-- Claim C1: for beta > 0 and n_points >= 1, a Fermion imaginary
frequency mesh has size 2*n_points with integer points k in
[-n_points, n_points); evaluating the identity affine operator iOmega_n
(a0 = 0, a1 = 1) against a container on that mesh writes at the j-th mesh
point (the point k = j - n_points) the Matsubara value im*(2k+1)*pi/beta,
i.e. i*(2k+1)*pi/beta for the numpy constants.  (beta > 0 is represented
by its consequence beta is nonzero, the only part expressible in a
general coefficient field.) -/
theorem claim1_matsubara_mesh_and_identity {K : Type} [Field K]
    (ctx : NumericCtx K) (beta : K) (n : ℕ) (hn : 1 ≤ n)
    (hb : beta ≠ 0) (g : Gf K)
    (hmesh : g.mesh = ⟨beta, "Fermion", n⟩) (hbeta : g.beta = beta) :
    (MeshImFreq.mk (K := K) beta "Fermion" n).size = 2 * n ∧
    (MeshImFreq.mk (K := K) beta "Fermion" n).points
      = (List.range (2 * n)).map (fun j : ℕ => (j : ℤ) - (n : ℤ)) ∧
    (∀ k ∈ (MeshImFreq.mk (K := K) beta "Fermion" n).points,
      -(n : ℤ) ≤ k ∧ k < (n : ℤ)) ∧
    (∀ w i j : ℕ, w < 2 * n →
      ((iOmega_n K).evaluate ctx g).data.entry w i j
        = if i = j
          then ctx.im * ((2 * ((w : ℤ) - (n : ℤ)) + 1 : ℤ) : K) * ctx.pi / beta
          else 0) := by
  refine ⟨?_, rfl, ?_, ?_⟩
  · unfold MeshImFreq.size MeshImFreq.points
    rw [List.length_map, List.length_range]
  · intro k hk
    simp only [MeshImFreq.points, List.mem_map, List.mem_range] at hk
    obtain ⟨j, hj, rfl⟩ := hk
    omega
  · intro w i j hw
    have hp : (MeshImFreq.mk (K := K) beta "Fermion" n).backendPoints.getD w 0
        = 2 * ((w : ℤ) - (n : ℤ)) + 1 := by
      unfold MeshImFreq.backendPoints
      simp only [eq_self_iff_true, if_true]
      exact list_getD_range_map _ _ _ hw
    rw [List.getD_eq_getElem?_getD] at hp
    by_cases hij : i = j
    · simp [LinearExpression.evaluate, iOmega_n, convertToMatrix, hmesh,
        hbeta, hp, hij]
    · simp [LinearExpression.evaluate, iOmega_n, convertToMatrix, hmesh,
        hbeta, hp, hij]

/-- Witness for claim C1: the spec's concrete scenario with im =
Complex.I, pi = Real.pi, beta = 10, n_points = 1, target shape 1x1: the
two mesh points k = -1, 0 receive the values -i*pi/10 and i*pi/10. -/
theorem claim1_matsubara_witness :
    ((iOmega_n ℂ).evaluate ⟨Complex.I, (Real.pi : ℂ)⟩ gW).data.entry 0 0 0
      = -(Complex.I * (Real.pi : ℂ) / 10) ∧
    ((iOmega_n ℂ).evaluate ⟨Complex.I, (Real.pi : ℂ)⟩ gW).data.entry 1 0 0
      = Complex.I * (Real.pi : ℂ) / 10 := by
  have h := claim1_matsubara_mesh_and_identity (K := ℂ)
    ⟨Complex.I, (Real.pi : ℂ)⟩ 10 1 (by norm_num) (by norm_num) gW rfl rfl
  have h0 := h.2.2.2 0 0 0 (by norm_num)
  have h1 := h.2.2.2 1 0 0 (by norm_num)
  simp only [if_pos rfl] at h0 h1
  constructor
  · rw [h0]; push_cast; ring
  · rw [h1]; push_cast; ring

/-- Claim C2: for dimension-compatible L (a x c), G with target shape
(c x d) and R (d x b), from_L_G_R sets self[w,a,b] to the double sum over
c, d of L[a,c]*G[w,c,d]*R[d,b]; for any dimension-incompatible
combination it raises DimensionMismatch (self is returned unchanged — no
mutation), and every raised mismatch names a pair that really disagrees.
The five checks sit before the single write, so a failure writes
nothing. -/
theorem claim2_from_L_G_R_contract {K : Type} [Field K] (g : Gf K)
    (L : Mat K) (G : Gf K) (R : Mat K) :
    ((L.rows = g.data.n1 ∧ L.cols = G.data.n1 ∧ G.data.n2 = R.rows ∧
        R.cols = g.data.n2 ∧ G.data.n0 = g.data.n0) →
      Gf.from_L_G_R g L G R
        = ({ g with data := { g.data with entry := (fun w a b =>
            Finset.sum (Finset.range L.cols) (fun c =>
              Finset.sum (Finset.range G.data.n2) (fun d =>
                L.entry a c * G.data.entry w c d * R.entry d b))) } },
           none)) ∧
    (¬(L.rows = g.data.n1 ∧ L.cols = G.data.n1 ∧ G.data.n2 = R.rows ∧
        R.cols = g.data.n2 ∧ G.data.n0 = g.data.n0) →
      (Gf.from_L_G_R g L G R).1 = g ∧ (Gf.from_L_G_R g L G R).2 ≠ none) ∧
    (∀ e, (Gf.from_L_G_R g L G R).2 = some e →
      mismatchNames e g L G R) := by
  unfold Gf.from_L_G_R
  split_ifs with h1 h2 h3 h4 h5
  · refine ⟨fun hc => absurd hc.1 h1, fun _ => ⟨rfl, by simp⟩, ?_⟩
    intro e he
    simp only at he
    injection he with he2
    subst he2
    exact h1
  · refine ⟨fun hc => absurd hc.2.1 h2, fun _ => ⟨rfl, by simp⟩, ?_⟩
    intro e he
    simp only at he
    injection he with he2
    subst he2
    exact h2
  · refine ⟨fun hc => absurd hc.2.2.1 h3, fun _ => ⟨rfl, by simp⟩, ?_⟩
    intro e he
    simp only at he
    injection he with he2
    subst he2
    exact h3
  · refine ⟨fun hc => absurd hc.2.2.2.1 h4, fun _ => ⟨rfl, by simp⟩, ?_⟩
    intro e he
    simp only at he
    injection he with he2
    subst he2
    exact h4
  · refine ⟨fun hc => absurd hc.2.2.2.2 h5, fun _ => ⟨rfl, by simp⟩, ?_⟩
    intro e he
    simp only at he
    injection he with he2
    subst he2
    exact h5
  · refine ⟨fun _ => rfl, fun hnc => ?_, ?_⟩
    · exact absurd ⟨not_ne_iff.mp h1, not_ne_iff.mp h2, not_ne_iff.mp h3,
        not_ne_iff.mp h4, not_ne_iff.mp h5⟩ hnc
    · intro e he
      simp only at he

/-- Witness for claim C2: a compatible 1 x 1 transform (L = 2, G = 5,
R = 3 at every entry) writes 2*5*3 = 30 and raises nothing; an L with the
wrong row count leaves the container untouched and raises. -/
theorem claim2_from_L_G_R_witness :
    (Gf.from_L_G_R gQ L1 gQ R1).2 = none ∧
    (Gf.from_L_G_R gQ L1 gQ R1).1.data.entry 0 0 0 = 30 ∧
    (Gf.from_L_G_R gQ LbadQ gQ R1).1 = gQ ∧
    (Gf.from_L_G_R gQ LbadQ gQ R1).2 ≠ none := by
  have h := claim2_from_L_G_R_contract gQ L1 gQ R1
  have hc := h.1 ⟨rfl, rfl, rfl, rfl, rfl⟩
  have h2 := (claim2_from_L_G_R_contract gQ LbadQ gQ R1).2.1
    (fun hcomp => absurd hcomp.1 (by decide))
  refine ⟨by rw [hc], ?_, h2.1, h2.2⟩
  rw [hc]
  show Finset.sum (Finset.range L1.cols) (fun c =>
    Finset.sum (Finset.range gQ.data.n2) (fun d =>
      L1.entry 0 c * gQ.data.entry 0 c d * R1.entry d 0)) = 30
  norm_num [L1, R1, gQ, d3Q]

/-- Claim C3 (amended): serializing a container through the archive write
and reconstructing it through the factory preserves data, beta and
statistic (for the data-model statistics Fermion/Boson and a container
whose beta/statistic agree with its mesh, as every constructor-built
container has), but the index labels are NOT restored: the factory
ignores the serialized indices and the reconstructed container carries
the default stringified-range labels (so the labels are preserved only
when the original's were the defaults); the name is reset to the empty
string as well. -/
theorem claim3_round_trip_amended {K : Type} [Field K] (g : Gf K)
    (hb : g.beta = g.mesh.beta) (hs : g.statistic = g.mesh.statistic)
    (hstat : g.mesh.statistic = "Fermion" ∨ g.mesh.statistic = "Boson") :
    gfRoundTrip g = Except.ok
      { data := g.data, targetShape := slice1 g.data, name := "",
        beta := g.beta, statistic := g.statistic, mesh := g.mesh,
        indices := ⟨[natRangeLabels g.data.n1, natRangeLabels g.data.n2]⟩ } := by
  have hm := meshRoundTrip g.mesh hstat
  simp only [gfRoundTrip, gfFactoryFromDict, gfInit, gfInitCore,
    mkFields, Gf.writeH5, processIndices, Option.getD_some, Option.getD_none,
    hm, hb, hs]

/-- Counterexample for claim C3 as stated: the container gQ carries the
index labels left = [a], right = [b]; after the write/factory round trip
the labels are the defaults left = [0], right = [0], so the index label
lists are not preserved. -/
theorem claim3_round_trip_counterexample :
    gQ.indices.data = [["a"], ["b"]] ∧
    rtIndices (gfRoundTrip gQ) = [["0"], ["0"]] ∧
    ([["0"], ["0"]] : List (List String)) ≠ [["a"], ["b"]] := by
  refine ⟨rfl, ?_, by decide⟩
  decide

/-- Witness for claim C3 (amended): the concrete container gQ round
trips to the stated reconstruction. -/
theorem claim3_round_trip_witness :
    gfRoundTrip gQ = Except.ok
      { data := gQ.data, targetShape := slice1 gQ.data, name := "",
        beta := gQ.beta, statistic := gQ.statistic, mesh := gQ.mesh,
        indices := ⟨[natRangeLabels gQ.data.n1, natRangeLabels gQ.data.n2]⟩ } :=
  claim3_round_trip_amended gQ rfl rfl (Or.inl rfl)

/-- Claim C4 (amended): when data is absent and an index argument is
present and accepted (and a mesh is available, as the allocation reads
mesh._points.size), the constructor allocates a complex tensor of shape
(mesh.size, len(indices[0]), len(indices[1])) of the PROCESSED index set
(a flat label list duplicated onto both axes; a nested [left, right]
argument first mangled by the stringification at gf.py line 101 into a
duplicated flat list of repr strings) — but with np.empty, so its entries
are the UNINITIALISED memory contents, not zeros.  An index argument of
any unrecognised type is rejected with ValueError before anything is
built. -/
theorem claim4_alloc_shape {K : Type} [Field K] (name : String) (beta : K)
    (statistic : String) (m : MeshImFreq K) (arg : IndicesArg)
    (idx : GfIndices) (hidx : processIndices arg = Except.ok (some idx))
    (uninit : ℕ → ℕ → ℕ → K) :
    (gfInit none name beta statistic (some m) arg none uninit).isOk = true ∧
    dataOf (gfInit none name beta statistic (some m) arg none uninit)
      = ⟨m.size, (idx.get 0).length, (idx.get 1).length, uninit⟩ ∧
    gfInit none name beta statistic (some m) IndicesArg.otherArg none uninit
      = Except.error ConstructErr.invalidIndices := by
  refine ⟨?_, ?_, rfl⟩ <;>
    simp [gfInit, gfInitCore, hidx, dataOf, mkFields, Except.isOk,
      Except.toBool]

/-- Counterexample for claim C4 as stated: allocating with memory that
happens to hold ones yields a container whose (0,0,0) entry is 1, not 0 —
np.empty does not zero the tensor. -/
theorem claim4_alloc_counterexample :
    (gfInit (K := ℚ) none "" 2 "Fermion" (some mQ) (IndicesArg.flat ["x"])
        none uninitOne).isOk = true ∧
    (dataOf (gfInit (K := ℚ) none "" 2 "Fermion" (some mQ)
        (IndicesArg.flat ["x"]) none uninitOne)).entry 0 0 0 = 1 ∧
    (1 : ℚ) ≠ 0 := by
  refine ⟨rfl, rfl, by norm_num⟩

/-- Witness for claim C4 (amended): a concrete allocation over mQ with one
flat label has shape (2, 1, 1) with entries given by the ambient memory,
and one with the nested argument [[a], [b]] has target dimensions 2 x 2 —
both axes of length 2, because the line-101 stringification mangles the
nested list into a duplicated flat list of two repr strings. -/
theorem claim4_alloc_witness :
    (gfInit (K := ℚ) none "" 2 "Fermion" (some mQ) (IndicesArg.flat ["x"])
        none uninitOne).isOk = true ∧
    dataOf (gfInit (K := ℚ) none "" 2 "Fermion" (some mQ)
        (IndicesArg.flat ["x"]) none uninitOne)
      = ⟨mQ.size, 1, 1, uninitOne⟩ ∧
    (dataOf (gfInit (K := ℚ) none "" 2 "Fermion" (some mQ)
        (IndicesArg.nested [["a"], ["b"]]) none uninitOne)).n1 = 2 ∧
    (dataOf (gfInit (K := ℚ) none "" 2 "Fermion" (some mQ)
        (IndicesArg.nested [["a"], ["b"]]) none uninitOne)).n2 = 2 := by
  have h1 := claim4_alloc_shape (K := ℚ) "" 2 "Fermion" mQ
    (IndicesArg.flat ["x"]) ⟨[["x"], ["x"]]⟩ rfl uninitOne
  have h2 := claim4_alloc_shape (K := ℚ) "" 2 "Fermion" mQ
    (IndicesArg.nested [["a"], ["b"]])
    ⟨[[pyStrListStr ["a"], pyStrListStr ["b"]],
      [pyStrListStr ["a"], pyStrListStr ["b"]]]⟩ rfl uninitOne
  refine ⟨h1.1, h1.2.1, ?_, ?_⟩
  · rw [h2.2.1]
    rfl
  · rw [h2.2.1]
    rfl

/-- Claim C5: the assignment operator applied to a raw ndarray of rank
other than 2 or 3 fails with the ShapeError raise site, applied to a
value of unrecognised type fails with the UnsupportedOperandError raise
site, and in both failing cases the container is returned completely
unchanged (the raise happens before any write). -/
theorem claim5_lshift_error_atomic {K : Type} [Field K]
    (ctx : NumericCtx K) (g : Gf K) (n : ℕ) (h2 : n ≠ 2) (h3 : n ≠ 3) :
    lshift ctx g (LshiftRhs.arr (Nd.otherRank n h2 h3))
      = (g, some LshiftErr.invalidNdarray) ∧
    lshift ctx g LshiftRhs.otherType = (g, some LshiftErr.invalidType) :=
  ⟨rfl, rfl⟩

/-- Witness for claim C5: a rank-4 ndarray and an unrecognised operand
against the concrete container gQ. -/
theorem claim5_lshift_witness :
    lshift ctxQ gQ (LshiftRhs.arr nd4) = (gQ, some LshiftErr.invalidNdarray) ∧
    lshift ctxQ gQ LshiftRhs.otherType = (gQ, some LshiftErr.invalidType) := by
  have h := claim5_lshift_error_atomic ctxQ gQ 4 (by norm_num) (by norm_num)
  exact ⟨h.1, h.2⟩

/-- Claim C6 (amended): multiplication and division decline a non-scalar
operand (returning NotImplemented, which lets the interpreter raise
TypeError only when the right operand's reflected operation also
declines), but addition with an operand that is neither a same-kind
container nor an ndarray does NOT raise: the if/elif chain of __add__ has
no else branch, so it silently returns an unmodified copy of the left
operand. -/
theorem claim6_unsupported_operand_amended {K : Type} [Field K] (g : Gf K) :
    Gf.mul g ScalarArg.nonScalar = none ∧
    Gf.truediv g ScalarArg.nonScalar = none ∧
    Gf.add g AddRhs.otherType = Except.ok g :=
  ⟨rfl, rfl, rfl⟩

/-- Counterexample for claim C6 as stated: adding an unrecognised operand
to the concrete container gQ raises nothing and returns an unmodified
copy of gQ — exactly what the claim says never happens. -/
theorem claim6_unsupported_operand_counterexample :
    Gf.add gQ AddRhs.otherType = Except.ok gQ := rfl

/-- Claim C7: same-kind addition is the elementwise data sum keeping the
left operand's mesh and indices, and rank-3 ndarray addition is
elementwise (through numpy's buffer-protocol reading of other.data); but
rank-2 ndarray addition does NOT broadcast — `other.data[None,:,:]`
indexes a memoryview with None and raises TypeError. -/
theorem claim7_add_behavior {K : Type} [Field K] (g h : Gf K) (t : T3 K)
    (m : Mat K) :
    Gf.add g (AddRhs.sameKind h) = Except.ok { g with data := add3 g.data h.data } ∧
    Gf.add g (AddRhs.arr (Nd.r3 t)) = Except.ok { g with data := add3 g.data t } ∧
    Gf.add g (AddRhs.arr (Nd.r2 m)) = Except.error AddErr.memoryviewTypeError :=
  ⟨rfl, rfl, rfl⟩

/-- Claim C9: scalar multiplication is commutative because __rmul__ is
the very same function as __mul__: s * g and g * s produce the same
container, whose data is the scaled data and whose mesh and indices are
the left container's. -/
theorem claim9_scalar_mul_commutes {K : Type} [Field K] (g : Gf K) (c : K) :
    Gf.rmul g (ScalarArg.scalar c) = Gf.mul g (ScalarArg.scalar c) ∧
    Gf.mul g (ScalarArg.scalar c) = some { g with data := scale3 c g.data } :=
  ⟨rfl, rfl⟩

/-- Claim C8: copy() is a fully independent value copy.  On the heap
model, deepcopy allocates fresh objects for the data and index-label
attributes whose contents equal the source's; mutating the copy's
objects afterwards leaves the source's objects exactly as before, and
mutating the source's objects leaves the copy's objects holding the
original contents.  (Rebinding immutable scalar attributes such as name
is independent by construction, since they are held by value.) -/
theorem claim8_copy_independence {K : Type} [Field K] (σ : PyStore K)
    (g : GfObj K) (hwf : g.wf σ) :
    ((deepcopyGf σ g).1.arrays (deepcopyGf σ g).2.dataRef
      = σ.arrays g.dataRef) ∧
    ((deepcopyGf σ g).1.labels (deepcopyGf σ g).2.indicesRef
      = σ.labels g.indicesRef) ∧
    ((deepcopyGf σ g).1.meshes (deepcopyGf σ g).2.meshRef
      = σ.meshes g.meshRef) ∧
    ((deepcopyGf σ g).2.dataRef ≠ g.dataRef) ∧
    ((deepcopyGf σ g).2.indicesRef ≠ g.indicesRef) ∧
    (∀ t : T3 K,
      (writeArray (deepcopyGf σ g).1 (deepcopyGf σ g).2.dataRef t).arrays
        g.dataRef = σ.arrays g.dataRef) ∧
    (∀ ls : List (List String),
      (writeLabels (deepcopyGf σ g).1 (deepcopyGf σ g).2.indicesRef ls).labels
        g.indicesRef = σ.labels g.indicesRef) ∧
    (∀ t : T3 K,
      (writeArray (deepcopyGf σ g).1 g.dataRef t).arrays
        (deepcopyGf σ g).2.dataRef = σ.arrays g.dataRef) ∧
    (∀ ls : List (List String),
      (writeLabels (deepcopyGf σ g).1 g.indicesRef ls).labels
        (deepcopyGf σ g).2.indicesRef = σ.labels g.indicesRef) := by
  obtain ⟨hd, ht, hm, hi⟩ := hwf
  simp only [deepcopyGf, writeArray, writeLabels]
  refine ⟨by simp, by simp, by simp, by omega, by omega, ?_, ?_, ?_, ?_⟩
  · intro t
    rw [if_neg (by omega), if_neg (by omega), if_neg (by omega)]
  · intro ls
    rw [if_neg (by omega), if_neg (by omega)]
  · intro t
    rw [if_neg (by omega)]
    simp
  · intro ls
    rw [if_neg (by omega)]
    simp

/-- Witness for claim C8: in the concrete store sQ, mutating the data or
labels of the deepcopy of oQ leaves oQ's objects as before, and mutating
oQ's data leaves the copy holding the original contents. -/
theorem claim8_copy_witness :
    (writeArray (deepcopyGf sQ oQ).1 (deepcopyGf sQ oQ).2.dataRef t3W).arrays
      oQ.dataRef = sQ.arrays oQ.dataRef ∧
    (writeArray (deepcopyGf sQ oQ).1 oQ.dataRef t3W).arrays
      (deepcopyGf sQ oQ).2.dataRef = sQ.arrays oQ.dataRef ∧
    (writeLabels (deepcopyGf sQ oQ).1 (deepcopyGf sQ oQ).2.indicesRef
        [["z"]]).labels oQ.indicesRef = sQ.labels oQ.indicesRef := by
  have h := claim8_copy_independence sQ oQ
    ⟨by decide, by decide, by decide, by decide⟩
  obtain ⟨-, -, -, -, -, h6, h7, h8, -⟩ := h
  exact ⟨h6 t3W, h8 t3W, h7 [["z"]]⟩

/-- Claim C10: assigning a same-kind container with << overwrites only
data, target_shape, name, beta and statistic; the mesh and indices
attribute slots keep exactly the object references they had (and the
label heap is untouched, so the right-hand side's index labels are never
transferred), while the data slot receives a NEW array object (copy of
the right-hand side's data contents), not the right-hand side's array
object itself. -/
theorem claim10_lshift_keeps_mesh_indices {K : Type} [Field K]
    (σ : PyStore K) (g A : GfObj K) (hA : A.wf σ) :
    ((lshiftObj σ g A).2.meshRef = g.meshRef) ∧
    ((lshiftObj σ g A).2.indicesRef = g.indicesRef) ∧
    ((lshiftObj σ g A).1.labels = σ.labels) ∧
    ((lshiftObj σ g A).1.meshes = σ.meshes) ∧
    ((lshiftObj σ g A).1.arrays (lshiftObj σ g A).2.dataRef
      = σ.arrays A.dataRef) ∧
    ((lshiftObj σ g A).1.arrays (lshiftObj σ g A).2.targetRef
      = σ.arrays A.targetRef) ∧
    ((lshiftObj σ g A).2.dataRef ≠ A.dataRef) ∧
    ((lshiftObj σ g A).2.name = A.name) ∧
    ((lshiftObj σ g A).2.beta = A.beta) ∧
    ((lshiftObj σ g A).2.statistic = A.statistic) := by
  obtain ⟨hd, ht, hm, hi⟩ := hA
  unfold lshiftObj
  refine ⟨rfl, rfl, rfl, rfl, by simp, ?_, ?_, rfl, rfl, rfl⟩
  · show (if σ.fresh + 1 = σ.fresh then σ.arrays A.dataRef
      else if σ.fresh + 1 = σ.fresh + 1 then σ.arrays A.targetRef
      else σ.arrays (σ.fresh + 1)) = σ.arrays A.targetRef
    rw [if_neg (by omega)]
    simp
  · show σ.fresh ≠ A.dataRef
    omega

/-- Witness for claim C10: assigning oQ2 into oQ over the concrete store
sQ keeps oQ's mesh and indices references and label heap, copies oQ2's
data contents into a fresh array object, and carries over oQ2's scalar
attributes. -/
theorem claim10_lshift_witness :
    (lshiftObj sQ oQ oQ2).2.meshRef = oQ.meshRef ∧
    (lshiftObj sQ oQ oQ2).2.indicesRef = oQ.indicesRef ∧
    (lshiftObj sQ oQ oQ2).1.labels = sQ.labels ∧
    (lshiftObj sQ oQ oQ2).1.arrays (lshiftObj sQ oQ oQ2).2.dataRef
      = sQ.arrays oQ2.dataRef ∧
    (lshiftObj sQ oQ oQ2).2.dataRef ≠ oQ2.dataRef ∧
    (lshiftObj sQ oQ oQ2).2.name = oQ2.name := by
  have h := claim10_lshift_keeps_mesh_indices sQ oQ oQ2
    ⟨by decide, by decide, by decide, by decide⟩
  obtain ⟨h1, h2, h3, -, h5, -, h7, h8, -, -⟩ := h
  exact ⟨h1, h2, h3, h5, h7, h8⟩
